import Mathlib

/-!
Verification of the satellite orbit tracking system (satelity).

The development shallowly embeds the computational core of the three
sources of the repository:

- satelity_modele.py : physical constants, the geodetic coordinate value
  type with its Cartesian conversion and 3-D distance, and the orbital
  parameter type with derived period and angular velocity;
- satelity_serwisy.py : the Keplerian propagator (propaguj_pozycje and the
  raising single-object entry point oblicz_pozycje), longitude
  normalization, and the single-instant collision detector wykryj_kolizje
  that treats per-object computation failures as recoverable;
- satelity_api.py : the grid-tick close-approach scanner
  wykryj_zdarzenia_w_przedziale with its precision parser
  parsuj_precyzje and its grid rounding zaokraglij_do_siatki.

Python floats are modelled as real numbers; instants are modelled by
their unix-epoch seconds as real numbers; Python `%` on reals with a
positive modulus is `fmod x y = x - y * ⌊x / y⌋`; Python `round` is
round-half-to-even (`pyround`).
-/

open Real

namespace SatelityModele

/-- Standard gravitational parameter of the Earth, km³/s²
(PARAMETR_GRAWIT_ZIEMI in satelity_modele.py). -/
def PARAMETR_GRAWIT_ZIEMI : ℝ := 398600.4418

/-- Mean Earth radius in km (SREDNICA_BAZOWA_ZIEMI). -/
def SREDNICA_BAZOWA_ZIEMI : ℝ := 6371.0

/-- Default proximity-detection threshold in km (TOLERANCJA_ZBLIZENIA). -/
def TOLERANCJA_ZBLIZENIA : ℝ := 0.01

/-- Numerical epsilon for floating comparisons (EPSILON_NUMERYCZNY). -/
def EPSILON_NUMERYCZNY : ℝ := 1e-9

/-- Operational state of an orbital object (TypObiektu). -/
inductive TypObiektu where
  | AKTYWNY
  | NIEAKTYWNY
  | DEZORBITALNY
deriving DecidableEq, Repr

/-- Geodetic coordinates (WspolrzedneGeodezyjne): latitude, longitude,
altitude above sea level in km. -/
structure WspolrzedneGeodezyjne where
  szer_geogr : ℝ
  dlug_geogr : ℝ
  wysokosc_npm : ℝ

/-- Python-style floating modulo for a real modulus:
`x % y = x - y * floor (x / y)`. -/
noncomputable def fmod (x y : ℝ) : ℝ := x - y * ⌊x / y⌋

/-- math.radians: degrees to radians. -/
noncomputable def radians (x : ℝ) : ℝ := x * π / 180

/-- math.degrees: radians to degrees. -/
noncomputable def degrees (x : ℝ) : ℝ := x * 180 / π

/-- math.atan2 with the usual quadrant-correct piecewise definition;
first argument is the y component, second the x component. -/
noncomputable def atan2 (y x : ℝ) : ℝ :=
  if 0 < x then Real.arctan (y / x)
  else if x < 0 then
    (if 0 ≤ y then Real.arctan (y / x) + π else Real.arctan (y / x) - π)
  else
    (if 0 < y then π / 2 else if y < 0 then -(π / 2) else 0)

namespace WspolrzedneGeodezyjne

/-- WspolrzedneGeodezyjne.do_kartezjanskich: spherical-Earth ECEF
projection with radius = Earth radius + altitude. -/
noncomputable def do_kartezjanskich (w : WspolrzedneGeodezyjne) : ℝ × ℝ × ℝ :=
  let promien_calkowity := SREDNICA_BAZOWA_ZIEMI + w.wysokosc_npm
  let lat_rad := radians w.szer_geogr
  let lon_rad := radians w.dlug_geogr
  ( promien_calkowity * Real.cos lat_rad * Real.cos lon_rad
  , promien_calkowity * Real.cos lat_rad * Real.sin lon_rad
  , promien_calkowity * Real.sin lat_rad )

/-- WspolrzedneGeodezyjne.dystans_do: Euclidean 3-D distance between the
Cartesian forms of two coordinates. -/
noncomputable def dystans_do (w inne : WspolrzedneGeodezyjne) : ℝ :=
  let p1 := w.do_kartezjanskich
  let p2 := inne.do_kartezjanskich
  Real.sqrt ((p2.1 - p1.1) ^ 2 + (p2.2.1 - p1.2.1) ^ 2 + (p2.2.2 - p1.2.2) ^ 2)

end WspolrzedneGeodezyjne

/-- Keplerian orbital parameters (ParametryOrbitalne): semi-major axis
in km, inclination in degrees, RAAN in degrees. -/
structure ParametryOrbitalne where
  polOs_wielka : ℝ
  inklinacja_kat : ℝ
  wezl_wstepujacy : ℝ

namespace ParametryOrbitalne

/-- ParametryOrbitalne.oblicz_okres_orbitalny: T = 2π·sqrt(a³/μ). -/
noncomputable def oblicz_okres_orbitalny (p : ParametryOrbitalne) : ℝ :=
  2 * π * Real.sqrt (p.polOs_wielka ^ 3 / PARAMETR_GRAWIT_ZIEMI)

/-- ParametryOrbitalne.oblicz_predkosc_katowa: ω = 2π/T when
T > EPSILON_NUMERYCZNY, else 0.0. -/
noncomputable def oblicz_predkosc_katowa (p : ParametryOrbitalne) : ℝ :=
  if p.oblicz_okres_orbitalny > EPSILON_NUMERYCZNY then
    2 * π / p.oblicz_okres_orbitalny
  else 0

end ParametryOrbitalne

/-- Proximity event (ZdarzeniePrzestrz): pair of object ids, instant,
location, minimal distance. -/
structure ZdarzeniePrzestrz where
  obiekt_id_a : ℤ
  obiekt_id_b : ℤ
  moment_czasu : ℝ
  lokalizacja : WspolrzedneGeodezyjne
  dystans_min : ℝ

end SatelityModele

namespace SatelitySerwisy

open SatelityModele

/-- PropagatorKeplerowski._normalizuj_dlugosc:
`((dlugosc_deg + 180) % 360) - 180`. -/
noncomputable def normalizuj_dlugosc (dlugosc_deg : ℝ) : ℝ :=
  fmod (dlugosc_deg + 180) 360 - 180

/-- PropagatorKeplerowski.propaguj_pozycje: circular Keplerian
propagation from orbital parameters, seconds since epoch, and initial
longitude in degrees. -/
noncomputable def propaguj_pozycje (parametry : ParametryOrbitalne)
    (czas_od_epoki : ℝ) (dlug_poczatkowa : ℝ) : WspolrzedneGeodezyjne :=
  let inklinacja_rad := radians parametry.inklinacja_kat
  let raan_rad := radians parametry.wezl_wstepujacy
  let dlug_pocz_rad := radians dlug_poczatkowa
  let omega_kat := parametry.oblicz_predkosc_katowa
  let anomalia_prawdziwa := fmod (omega_kat * czas_od_epoki + dlug_pocz_rad) (2 * π)
  let szer_orb := Real.arcsin (Real.sin inklinacja_rad * Real.sin anomalia_prawdziwa)
  let dlug_wsp := atan2 (Real.cos inklinacja_rad * Real.sin anomalia_prawdziwa)
      (Real.cos anomalia_prawdziwa) + raan_rad
  let szer_geo := degrees szer_orb
  let dlug_geo := normalizuj_dlugosc (degrees dlug_wsp)
  let wysokosc := parametry.polOs_wielka - SREDNICA_BAZOWA_ZIEMI
  { szer_geogr := szer_geo, dlug_geogr := dlug_geo, wysokosc_npm := wysokosc }

end SatelitySerwisy

namespace SatelityModele

/-- Orbit database record (ModelOrbityBD): altitude above the Earth in
km, inclination and RAAN in degrees. -/
structure ModelOrbityBD where
  id_rekordu : ℤ
  wysokosc_km : ℝ
  kat_inklinacji : ℝ
  wezel_wst : ℝ

/-- Orbital object database record (ModelObiektuBD) with its joined
orbit (the orbita_ref relationship); the introduction date is modelled
by its unix-epoch seconds. -/
structure ModelObiektuBD where
  id_rekordu : ℤ
  data_wprowadzenia : ℝ
  stan_operacyjny : TypObiektu
  pozycja_startowa_lon : ℝ
  orbita_ref : ModelOrbityBD

/-- All ordered index pairs (i, j) with i before j of a list of ids:
the nested loop `for i, id_a in enumerate(ids): for j in range(i+1,
len(ids)): ...` of both detectors. -/
def pary : List ℤ → List (ℤ × ℤ)
  | [] => []
  | a :: reszta => reszta.map (fun b => (a, b)) ++ pary reszta

/-- Python dict lookup over an insertion-ordered association list: the
value of the last insertion for the key wins. -/
def szukaj (pozycje : List (ℤ × WspolrzedneGeodezyjne)) (i : ℤ) :
    Option WspolrzedneGeodezyjne :=
  match pozycje with
  | [] => none
  | p :: reszta =>
    match szukaj reszta i with
    | some w => some w
    | none => if p.1 = i then some p.2 else none

end SatelityModele

namespace SatelitySerwisy

open SatelityModele

/-- Domain error of the orbital computations (BladObliczenOrbitych),
distinguished by its message. -/
inductive BladObliczenOrbitych where
  | momentPrzedStartem
  | predkoscZbytNiska
deriving DecidableEq, Repr

/-- PropagatorKeplerowski.oblicz_pozycje: the raising single-object
entry point; it rejects a computation instant before the start date and
a near-zero angular velocity, otherwise delegates to propaguj_pozycje;
exceptions are modelled by Except. -/
noncomputable def oblicz_pozycje (param_orb : ParametryOrbitalne)
    (moment dlugosc_pocz data_startowa : ℝ) :
    Except BladObliczenOrbitych WspolrzedneGeodezyjne :=
  let delta_t := moment - data_startowa
  if delta_t < 0 then .error .momentPrzedStartem
  else if |param_orb.oblicz_predkosc_katowa| < EPSILON_NUMERYCZNY then
    .error .predkoscZbytNiska
  else .ok (propaguj_pozycje param_orb delta_t dlugosc_pocz)

/-- SerwisObliczenOrbitalalnych.oblicz_pozycje_obiektu (satelity_serwisy):
builds the orbital parameters from the object's joined orbit record
(semi-major axis = altitude + Earth radius) and calls the raising entry
point. -/
noncomputable def oblicz_pozycje_obiektu (obiekt : ModelObiektuBD)
    (moment : ℝ) : Except BladObliczenOrbitych WspolrzedneGeodezyjne :=
  oblicz_pozycje
    { polOs_wielka := obiekt.orbita_ref.wysokosc_km + SREDNICA_BAZOWA_ZIEMI
    , inklinacja_kat := obiekt.orbita_ref.kat_inklinacji
    , wezl_wstepujacy := obiekt.orbita_ref.wezel_wst }
    moment obiekt.pozycja_startowa_lon obiekt.data_wprowadzenia

/-- The per-object position pass of SerwisAnalizyZdarzen.wykryj_kolizje:
each failing object is skipped (the `except ... continue`), the
surviving ones are keyed by id in iteration order. -/
noncomputable def pozycje_kolizji (obiekty : List ModelObiektuBD)
    (moment : ℝ) : List (ℤ × WspolrzedneGeodezyjne) :=
  obiekty.filterMap (fun obj =>
    (oblicz_pozycje_obiektu obj moment).toOption.map
      (fun poz => (obj.id_rekordu, poz)))

/-- The pairwise pass of SerwisAnalizyZdarzen.wykryj_kolizje: ids in
dict insertion order (not sorted), inclusive threshold comparison, and
the midpoint of the two positions as the event location. -/
noncomputable def zdarzenia_kolizji (prog_zblizenia : ℝ)
    (pozycje : List (ℤ × WspolrzedneGeodezyjne)) (moment : ℝ) :
    List ZdarzeniePrzestrz :=
  (pary ((pozycje.map Prod.fst).dedup)).filterMap (fun para =>
    match szukaj pozycje para.1, szukaj pozycje para.2 with
    | some poz_a, some poz_b =>
      let dystans := poz_a.dystans_do poz_b
      if dystans ≤ prog_zblizenia then
        some { obiekt_id_a := para.1
             , obiekt_id_b := para.2
             , moment_czasu := moment
             , lokalizacja :=
                { szer_geogr := (poz_a.szer_geogr + poz_b.szer_geogr) / 2
                , dlug_geogr := (poz_a.dlug_geogr + poz_b.dlug_geogr) / 2
                , wysokosc_npm := (poz_a.wysokosc_npm + poz_b.wysokosc_npm) / 2 }
             , dystans_min := dystans }
      else none
    | _, _ => none)

/-- SerwisAnalizyZdarzen.wykryj_kolizje (satelity_serwisy): single
instant collision detection over the active objects, with per-object
failures recoverable. -/
noncomputable def wykryj_kolizje (prog_zblizenia : ℝ)
    (obiekty_bd : List ModelObiektuBD) (moment : ℝ) :
    List ZdarzeniePrzestrz :=
  let obiekty := obiekty_bd.filter
    (fun o => o.stan_operacyjny = TypObiektu.AKTYWNY)
  if obiekty.length < 2 then []
  else zdarzenia_kolizji prog_zblizenia (pozycje_kolizji obiekty moment) moment

end SatelitySerwisy

namespace SatelityApi

open SatelityModele SatelitySerwisy

/-- SerwisObliczenOrbitalalnych.oblicz_pozycje_w_czasie (satelity_api):
None for an object not yet introduced at the queried instant, otherwise
the propagated position for the elapsed seconds since introduction. -/
noncomputable def oblicz_pozycje_w_czasie (model_obiektu : ModelObiektuBD)
    (znacznik_czasu : ℝ) : Option WspolrzedneGeodezyjne :=
  if znacznik_czasu < model_obiektu.data_wprowadzenia then none
  else some (propaguj_pozycje
    { polOs_wielka := SREDNICA_BAZOWA_ZIEMI + model_obiektu.orbita_ref.wysokosc_km
    , inklinacja_kat := model_obiektu.orbita_ref.kat_inklinacji
    , wezl_wstepujacy := model_obiektu.orbita_ref.wezel_wst }
    (znacznik_czasu - model_obiektu.data_wprowadzenia)
    model_obiektu.pozycja_startowa_lon)

/-- Numeric value of an ASCII digit string, as int() reads the first
regex group. -/
def natOfDigits (l : List Char) : ℕ :=
  l.foldl (fun a c => 10 * a + (c.toNat - 48)) 0

/-- The unit suffixes accepted by the precision pattern
`^(\d+)(ms|s|m|h|d)$` with their factor in milliseconds. -/
def jednostka_ms : List Char → Option ℤ
  | ['m', 's'] => some 1
  | ['s'] => some 1000
  | ['m'] => some 60000
  | ['h'] => some 3600000
  | ['d'] => some 86400000
  | _ => none

/-- SerwisAnalizyZdarzen.parsuj_precyzje: the token must be a nonempty
digit run followed exactly by one of the five unit suffixes, the
magnitude must be at least 1; the result is the timedelta in
milliseconds. Failures (ValueError) are modelled by none. -/
def parsuj_precyzje (tekst_precyzji : List Char) : Option ℤ :=
  match tekst_precyzji.takeWhile Char.isDigit,
        jednostka_ms (tekst_precyzji.dropWhile Char.isDigit) with
  | [], _ => none
  | _ :: _, none => none
  | c :: cs, some k =>
    if natOfDigits (c :: cs) < 1 then none
    else some (k * natOfDigits (c :: cs))

/-- Python's round: round-half-to-even on reals. -/
noncomputable def pyround (x : ℝ) : ℤ :=
  if x - ⌊x⌋ < 1 / 2 then ⌊x⌋
  else if 1 / 2 < x - ⌊x⌋ then ⌊x⌋ + 1
  else if Even ⌊x⌋ then ⌊x⌋ else ⌊x⌋ + 1

/-- SerwisAnalizyZdarzen.zaokraglij_do_siatki: round the instant's unix
seconds to the nearest multiple of the step's seconds. -/
noncomputable def zaokraglij_do_siatki (dt delta : ℝ) : ℝ :=
  (pyround (dt / delta) : ℝ) * delta

/-- The per-tick position pass of wykryj_zdarzenia_w_przedziale: skip
non-active objects, skip objects without a position, key the rest by id
in iteration order. -/
noncomputable def pozycje_map (obiekty : List ModelObiektuBD)
    (czas_obecny : ℝ) : List (ℤ × WspolrzedneGeodezyjne) :=
  obiekty.filterMap (fun obiekt =>
    if obiekt.stan_operacyjny = TypObiektu.AKTYWNY then
      (oblicz_pozycje_w_czasie obiekt czas_obecny).map
        (fun poz => (obiekt.id_rekordu, poz))
    else none)

/-- The tick's surviving object ids in ascending order:
`sorted(pozycje_map.keys())`. -/
def ids_aktywne (pozycje : List (ℤ × WspolrzedneGeodezyjne)) : List ℤ :=
  ((pozycje.map Prod.fst).dedup).insertionSort (· ≤ ·)

/-- The pairwise pass of one grid tick of
wykryj_zdarzenia_w_przedziale: every pair taken ascending from the
sorted surviving ids, strict threshold comparison, event location is
the first object's position. -/
noncomputable def zdarzenia_w_ticku (obiekty : List ModelObiektuBD)
    (czas_obecny : ℝ) : List ZdarzeniePrzestrz :=
  let pozycje := pozycje_map obiekty czas_obecny
  (pary (ids_aktywne pozycje)).filterMap (fun para =>
    match szukaj pozycje para.1, szukaj pozycje para.2 with
    | some poz_a, some poz_b =>
      let dystans := poz_a.dystans_do poz_b
      if dystans < TOLERANCJA_ZBLIZENIA then
        some { obiekt_id_a := min para.1 para.2
             , obiekt_id_b := max para.1 para.2
             , moment_czasu := czas_obecny
             , lokalizacja := poz_a
             , dystans_min := dystans }
      else none
    | _, _ => none)

/-- Number of iterations of the while loop `czas_obecny := start; while
czas_obecny ≤ koniec: ...; czas_obecny += delta` for a positive step,
in closed form. -/
noncomputable def liczba_krokow (czas_start czas_koniec delta : ℝ) : ℕ :=
  if czas_start ≤ czas_koniec then
    (⌊(czas_koniec - czas_start) / delta⌋).toNat + 1
  else 0

/-- The grid instants the while loop visits: start, start + delta, …,
up to the last one not exceeding the end. -/
noncomputable def siatka (czas_start czas_koniec delta : ℝ) : List ℝ :=
  (List.range (liczba_krokow czas_start czas_koniec delta)).map
    (fun n => czas_start + n * delta)

/-- SerwisAnalizyZdarzen.wykryj_zdarzenia_w_przedziale (satelity_api):
snap both interval endpoints to the grid, then collect the events of
every grid tick. -/
noncomputable def wykryj_zdarzenia_w_przedziale
    (obiekty : List ModelObiektuBD) (czas_start czas_koniec delta_czasu : ℝ) :
    List ZdarzeniePrzestrz :=
  let s := zaokraglij_do_siatki czas_start delta_czasu
  let k := zaokraglij_do_siatki czas_koniec delta_czasu
  (siatka s k delta_czasu).flatMap
    (fun czas_obecny => zdarzenia_w_ticku obiekty czas_obecny)

/-- Example orbit for the concrete witnesses: 550 km altitude,
51.6° inclination, RAAN 0. -/
def przyklad_orbita : ModelOrbityBD :=
  { id_rekordu := 1, wysokosc_km := 550, kat_inklinacji := 51.6, wezel_wst := 0 }

/-- Example active object with id 1, epoch 0, initial longitude 0. -/
def przyklad_obiekt1 : ModelObiektuBD :=
  { id_rekordu := 1, data_wprowadzenia := 0, stan_operacyjny := TypObiektu.AKTYWNY
  , pozycja_startowa_lon := 0, orbita_ref := przyklad_orbita }

/-- Example active object with id 2 on the same orbit and epoch. -/
def przyklad_obiekt2 : ModelObiektuBD :=
  { id_rekordu := 2, data_wprowadzenia := 0, stan_operacyjny := TypObiektu.AKTYWNY
  , pozycja_startowa_lon := 0, orbita_ref := przyklad_orbita }

/-- Example object whose epoch 1000 is after the queried instant 0. -/
def przyklad_obiekt_przyszly : ModelObiektuBD :=
  { id_rekordu := 7, data_wprowadzenia := 1000, stan_operacyjny := TypObiektu.AKTYWNY
  , pozycja_startowa_lon := 0, orbita_ref := przyklad_orbita }

/-- The position both example objects occupy at instant 0. -/
noncomputable def przyklad_pozycja : WspolrzedneGeodezyjne :=
  propaguj_pozycje
    { polOs_wielka := SREDNICA_BAZOWA_ZIEMI + 550
    , inklinacja_kat := 51.6, wezl_wstepujacy := 0 } 0 0

/-- The single event the example scan produces. -/
noncomputable def przyklad_zdarzenie : ZdarzeniePrzestrz :=
  { obiekt_id_a := 1, obiekt_id_b := 2, moment_czasu := 0
  , lokalizacja := przyklad_pozycja, dystans_min := 0 }

end SatelityApi

namespace SatelityModele

/-- Auxiliary: `fmod x y` lies in `[0, y)` for a positive modulus,
exactly as Python's `%`. -/
theorem fmod_nonneg_lt {y : ℝ} (x : ℝ) (hy : 0 < y) :
    0 ≤ fmod x y ∧ fmod x y < y := by
  have hfr : fmod x y = y * Int.fract (x / y) := by
    unfold fmod Int.fract
    rw [mul_sub, mul_div_cancel₀ _ (ne_of_gt hy)]
  constructor
  · rw [hfr]
    exact mul_nonneg hy.le (Int.fract_nonneg _)
  · rw [hfr]
    calc y * Int.fract (x / y) < y * 1 :=
          mul_lt_mul_of_pos_left (Int.fract_lt_one _) hy
    _ = y := mul_one y

end SatelityModele

namespace SatelitySerwisy

open SatelityModele

/-- Auxiliary: for semi-major axis above the Earth radius the orbital
period exceeds the numerical epsilon, so the angular velocity takes its
2π/T branch. -/
theorem oblicz_predkosc_katowa_eq {p : ParametryOrbitalne}
    (h : SREDNICA_BAZOWA_ZIEMI < p.polOs_wielka) :
    p.oblicz_predkosc_katowa =
      2 * π / (2 * π * Real.sqrt (p.polOs_wielka ^ 3 / 398600.4418)) := by
  have h0 : (6371.0 : ℝ) < p.polOs_wielka := by
    unfold SREDNICA_BAZOWA_ZIEMI at h
    exact h
  have hcube : (6371.0 : ℝ) ^ 3 < p.polOs_wielka ^ 3 :=
    pow_lt_pow_left₀ h0 (by norm_num) (by norm_num)
  have hquot : (1 : ℝ) ≤ p.polOs_wielka ^ 3 / 398600.4418 := by
    rw [le_div_iff₀ (by norm_num : (0:ℝ) < 398600.4418)]
    nlinarith
  have hsq : (1 : ℝ) ≤ Real.sqrt (p.polOs_wielka ^ 3 / 398600.4418) :=
    Real.one_le_sqrt.mpr hquot
  have hT : p.oblicz_okres_orbitalny > EPSILON_NUMERYCZNY := by
    unfold ParametryOrbitalne.oblicz_okres_orbitalny PARAMETR_GRAWIT_ZIEMI
    unfold EPSILON_NUMERYCZNY
    nlinarith [Real.pi_gt_three]
  unfold ParametryOrbitalne.oblicz_predkosc_katowa
  rw [if_pos hT]
  unfold ParametryOrbitalne.oblicz_okres_orbitalny PARAMETR_GRAWIT_ZIEMI
  rfl

/-- Claim C1: for every orbital parameters (with a semi-major axis in
the data model's range, above the Earth radius), every elapsed time and
every initial longitude, propaguj_pozycje returns exactly the coordinate
with latitude degrees(asin(sin i · sin u)), longitude the normalization
into [-180,180) of degrees(atan2(cos i · sin u, cos u) + raan), and
altitude a - 6371.0, where u = (ω·t + l0) mod 2π and
ω = 2π/(2π·sqrt(a³/398600.4418)); in particular the altitude is
independent of the elapsed time. -/
theorem C1_propagacja_formula (p : ParametryOrbitalne) (t l0 : ℝ)
    (h : SREDNICA_BAZOWA_ZIEMI < p.polOs_wielka) :
    propaguj_pozycje p t l0 =
      { szer_geogr := degrees (Real.arcsin (Real.sin (radians p.inklinacja_kat) *
          Real.sin (fmod (2 * π / (2 * π * Real.sqrt (p.polOs_wielka ^ 3 / 398600.4418)) * t
            + radians l0) (2 * π))))
      , dlug_geogr := normalizuj_dlugosc (degrees
          (atan2 (Real.cos (radians p.inklinacja_kat) *
              Real.sin (fmod (2 * π / (2 * π * Real.sqrt (p.polOs_wielka ^ 3 / 398600.4418)) * t
                + radians l0) (2 * π)))
            (Real.cos (fmod (2 * π / (2 * π * Real.sqrt (p.polOs_wielka ^ 3 / 398600.4418)) * t
                + radians l0) (2 * π)))
           + radians p.wezl_wstepujacy))
      , wysokosc_npm := p.polOs_wielka - 6371.0 } ∧
    ∀ t' : ℝ, (propaguj_pozycje p t' l0).wysokosc_npm = p.polOs_wielka - 6371.0 := by
  constructor
  · unfold propaguj_pozycje
    rw [oblicz_predkosc_katowa_eq h]
    simp [SREDNICA_BAZOWA_ZIEMI]
  · intro t'
    unfold propaguj_pozycje
    simp [SREDNICA_BAZOWA_ZIEMI]

/-- Witness for C1 at concrete inputs a = 7000 km, i = 30°, raan = 40°,
t = 5 s, l0 = 10°. -/
theorem C1_propagacja_formula_witness :
    propaguj_pozycje ⟨7000, 30, 40⟩ 5 10 =
      { szer_geogr := degrees (Real.arcsin (Real.sin (radians (30:ℝ)) *
          Real.sin (fmod (2 * π / (2 * π * Real.sqrt ((7000:ℝ) ^ 3 / 398600.4418)) * 5
            + radians 10) (2 * π))))
      , dlug_geogr := normalizuj_dlugosc (degrees
          (atan2 (Real.cos (radians (30:ℝ)) *
              Real.sin (fmod (2 * π / (2 * π * Real.sqrt ((7000:ℝ) ^ 3 / 398600.4418)) * 5
                + radians 10) (2 * π)))
            (Real.cos (fmod (2 * π / (2 * π * Real.sqrt ((7000:ℝ) ^ 3 / 398600.4418)) * 5
                + radians 10) (2 * π)))
           + radians (40:ℝ)))
      , wysokosc_npm := (7000:ℝ) - 6371.0 } :=
  (C1_propagacja_formula ⟨7000, 30, 40⟩ 5 10
    (by norm_num [SatelityModele.SREDNICA_BAZOWA_ZIEMI])).1

/-- Claim C6: the longitude normalization maps every real input into the
half-open interval [-180, 180), and hence every longitude returned by
the propagator lies in that interval. -/
theorem C6_zakres_dlugosci :
    (∀ x : ℝ, -180 ≤ normalizuj_dlugosc x ∧ normalizuj_dlugosc x < 180) ∧
    (∀ (p : ParametryOrbitalne) (t l0 : ℝ),
      -180 ≤ (propaguj_pozycje p t l0).dlug_geogr ∧
      (propaguj_pozycje p t l0).dlug_geogr < 180) := by
  have h1 : ∀ x : ℝ, -180 ≤ normalizuj_dlugosc x ∧ normalizuj_dlugosc x < 180 := by
    intro x
    have := fmod_nonneg_lt (x + 180) (by norm_num : (0:ℝ) < 360)
    unfold normalizuj_dlugosc
    constructor <;> linarith [this.1, this.2]
  refine ⟨h1, fun p t l0 => ?_⟩
  have : (propaguj_pozycje p t l0).dlug_geogr =
      normalizuj_dlugosc (degrees
        (atan2 (Real.cos (radians p.inklinacja_kat) *
            Real.sin (fmod (p.oblicz_predkosc_katowa * t + radians l0) (2 * π)))
          (Real.cos (fmod (p.oblicz_predkosc_katowa * t + radians l0) (2 * π)))
         + radians p.wezl_wstepujacy)) := rfl
  rw [this]
  exact h1 _

/-- Claim C10: the low-level propagation is total: the asin argument
sin(i)·sin(u) always lies in [-1, 1] (so the returned latitude lies in
[-90, 90]), and a degenerate orbit with angular velocity exactly 0
yields an output independent of the elapsed time instead of a failure. -/
theorem C10_propagacja_totalna :
    (∀ (p : ParametryOrbitalne) (t l0 : ℝ),
      -1 ≤ Real.sin (radians p.inklinacja_kat) *
            Real.sin (fmod (p.oblicz_predkosc_katowa * t + radians l0) (2 * π)) ∧
      Real.sin (radians p.inklinacja_kat) *
            Real.sin (fmod (p.oblicz_predkosc_katowa * t + radians l0) (2 * π)) ≤ 1 ∧
      -90 ≤ (propaguj_pozycje p t l0).szer_geogr ∧
      (propaguj_pozycje p t l0).szer_geogr ≤ 90) ∧
    (∀ (p : ParametryOrbitalne) (t t' l0 : ℝ),
      p.oblicz_predkosc_katowa = 0 →
      propaguj_pozycje p t l0 = propaguj_pozycje p t' l0) := by
  constructor
  · intro p t l0
    set a := radians p.inklinacja_kat
    set b := fmod (p.oblicz_predkosc_katowa * t + radians l0) (2 * π)
    have habs : |Real.sin a * Real.sin b| ≤ 1 := by
      rw [abs_mul]
      calc |Real.sin a| * |Real.sin b| ≤ 1 * 1 :=
            mul_le_mul (Real.abs_sin_le_one a) (Real.abs_sin_le_one b)
              (abs_nonneg _) (by norm_num)
      _ = 1 := one_mul 1
    have h1 := abs_le.mp habs
    refine ⟨h1.1, h1.2, ?_, ?_⟩
    · have harc : -(π/2) ≤ Real.arcsin (Real.sin a * Real.sin b) :=
        Real.neg_pi_div_two_le_arcsin _
      have hlat : (propaguj_pozycje p t l0).szer_geogr =
          Real.arcsin (Real.sin a * Real.sin b) * 180 / π := rfl
      rw [hlat, le_div_iff₀ Real.pi_pos]
      nlinarith [Real.pi_pos]
    · have harc : Real.arcsin (Real.sin a * Real.sin b) ≤ π/2 :=
        Real.arcsin_le_pi_div_two _
      have hlat : (propaguj_pozycje p t l0).szer_geogr =
          Real.arcsin (Real.sin a * Real.sin b) * 180 / π := rfl
      rw [hlat, div_le_iff₀ Real.pi_pos]
      nlinarith [Real.pi_pos]
  · intro p t t' l0 hw
    unfold propaguj_pozycje
    rw [hw]
    simp

/-- Witness for C10: the orbit with semi-major axis 0 has angular
velocity 0 and a t-independent propagated position. -/
theorem C10_propagacja_totalna_witness :
    propaguj_pozycje ⟨0, 0, 0⟩ 1 0 = propaguj_pozycje ⟨0, 0, 0⟩ 2 0 :=
  C10_propagacja_totalna.2 ⟨0, 0, 0⟩ 1 2 0 (by
    unfold ParametryOrbitalne.oblicz_predkosc_katowa
      ParametryOrbitalne.oblicz_okres_orbitalny
    norm_num [Real.sqrt_zero, EPSILON_NUMERYCZNY, PARAMETR_GRAWIT_ZIEMI])

end SatelitySerwisy

namespace SatelityApi

open SatelityModele

/-- Auxiliary: Python's round of an integer is the integer itself. -/
theorem pyround_intCast (k : ℤ) : pyround (k : ℝ) = k := by
  unfold pyround
  rw [Int.floor_intCast]
  norm_num

/-- Claim C8: zaokraglij_do_siatki is idempotent for every nonzero grid
duration and every instant; in particular an already aligned instant is
returned unchanged. -/
theorem C8_snap_idempotentne (dt delta : ℝ) (h : delta ≠ 0) :
    zaokraglij_do_siatki (zaokraglij_do_siatki dt delta) delta =
      zaokraglij_do_siatki dt delta := by
  unfold zaokraglij_do_siatki
  rw [mul_div_cancel_right₀ _ h, pyround_intCast]

/-- Witness for C8 at the concrete instant 12345 s and the 600 s grid. -/
theorem C8_snap_idempotentne_witness :
    zaokraglij_do_siatki (zaokraglij_do_siatki 12345 600) 600 =
      zaokraglij_do_siatki 12345 600 :=
  C8_snap_idempotentne 12345 600 (by norm_num)

/-- Auxiliary: a token accepted by the unit table starts with a
non-digit, so its digit prefix is empty. -/
theorem jednostka_ms_not_digit (u : List Char) (k : ℤ)
    (h : jednostka_ms u = some k) : u.takeWhile Char.isDigit = [] := by
  unfold jednostka_ms at h
  split at h
  · decide
  · decide
  · decide
  · decide
  · decide
  · exact absurd h (by simp)

/-- Auxiliary: splitting a digit run followed by a digit-free suffix. -/
theorem takeWhile_digits_append (ds u : List Char)
    (hds : ∀ c ∈ ds, Char.isDigit c = true)
    (hu : u.takeWhile Char.isDigit = []) :
    (ds ++ u).takeWhile Char.isDigit = ds ∧
    (ds ++ u).dropWhile Char.isDigit = u := by
  induction ds with
  | nil =>
    refine ⟨by simpa using hu, ?_⟩
    conv_rhs => rw [← List.takeWhile_append_dropWhile Char.isDigit u]
    rw [hu]
    simp
  | cons c cs ih =>
    have hc : Char.isDigit c = true := hds c (List.mem_cons_self c cs)
    have ih' := ih (fun x hx => hds x (List.mem_cons_of_mem c hx))
    constructor
    · simpa [List.takeWhile_cons, hc] using ih'.1
    · simpa [List.dropWhile_cons, hc] using ih'.2

/-- Claim C9: parsuj_precyzje accepts exactly the tokens made of a
nonempty digit run of value at least 1 followed by one of the suffixes
ms, s, m, h, d, mapping them to the corresponding duration (so "5m"
yields five minutes), and returns a failure on every other input — in
particular on "0s", "-3h" and "3x". -/
theorem C9_parsuj_precyzje_charakteryzacja :
    (∀ (ds u : List Char) (k : ℤ),
      ds ≠ [] → (∀ c ∈ ds, Char.isDigit c = true) →
      jednostka_ms u = some k → 1 ≤ natOfDigits ds →
      parsuj_precyzje (ds ++ u) = some (k * natOfDigits ds)) ∧
    (∀ (s : List Char) (v : ℤ), parsuj_precyzje s = some v →
      s = s.takeWhile Char.isDigit ++ s.dropWhile Char.isDigit ∧
      s.takeWhile Char.isDigit ≠ [] ∧
      (∀ c ∈ s.takeWhile Char.isDigit, Char.isDigit c = true) ∧
      ∃ k : ℤ, jednostka_ms (s.dropWhile Char.isDigit) = some k ∧
        1 ≤ natOfDigits (s.takeWhile Char.isDigit) ∧
        v = k * natOfDigits (s.takeWhile Char.isDigit)) ∧
    (parsuj_precyzje ['5', 'm'] = some 300000 ∧
     parsuj_precyzje ['0', 's'] = none ∧
     parsuj_precyzje ['-', '3', 'h'] = none ∧
     parsuj_precyzje ['3', 'x'] = none) := by
  refine ⟨?_, ?_, by decide⟩
  · intro ds u k hne hds hu hv
    obtain ⟨h1, h2⟩ := takeWhile_digits_append ds u hds
      (jednostka_ms_not_digit u k hu)
    cases ds with
    | nil => exact absurd rfl hne
    | cons c cs =>
      unfold parsuj_precyzje
      rw [h1, h2, hu]
      have hge : ¬ natOfDigits (c :: cs) < 1 := by omega
      simp [hge]
  · intro s v h
    refine ⟨(List.takeWhile_append_dropWhile Char.isDigit s).symm, ?_⟩
    cases hds : s.takeWhile Char.isDigit with
    | nil =>
      unfold parsuj_precyzje at h
      rw [hds] at h
      simp at h
    | cons c cs =>
      cases hj : jednostka_ms (s.dropWhile Char.isDigit) with
      | none =>
        unfold parsuj_precyzje at h
        rw [hds, hj] at h
        simp at h
      | some k =>
        unfold parsuj_precyzje at h
        rw [hds, hj] at h
        by_cases hlt : natOfDigits (c :: cs) < 1
        · simp [hlt] at h
        · simp [hlt] at h
          refine ⟨by simp, ?_, k, rfl, by omega, h.symm⟩
          intro x hx
          have hx' : x ∈ s.takeWhile Char.isDigit := by
            rw [hds]
            exact hx
          exact List.mem_takeWhile_imp hx'

/-- Witness for C9: the token "5m" parses to five minutes through the
acceptance direction of the characterization. -/
theorem C9_parsuj_precyzje_witness :
    parsuj_precyzje (['5'] ++ ['m']) = some (60000 * natOfDigits ['5']) :=
  C9_parsuj_precyzje_charakteryzacja.1 ['5'] ['m'] 60000
    (by decide) (by decide) (by decide) (by decide)

end SatelityApi

namespace SatelityModele

/-- Auxiliary: the pair list of the nested index loop only combines a
list element with later elements, so any pairwise property of the list
holds of every produced pair. -/
theorem pary_pairwise {R : ℤ → ℤ → Prop} :
    ∀ (l : List ℤ), l.Pairwise R → ∀ ab ∈ pary l, R ab.1 ab.2 := by
  intro l
  induction l with
  | nil => intro _ ab hab; simp [pary] at hab
  | cons a rest ih =>
    intro h ab hab
    rw [List.pairwise_cons] at h
    unfold pary at hab
    rw [List.mem_append] at hab
    cases hab with
    | inl h1 =>
      obtain ⟨b, hb, rfl⟩ := List.mem_map.mp h1
      exact h.1 b hb
    | inr h2 => exact ih h.2 ab h2

/-- Auxiliary: both components of a produced pair are list members. -/
theorem pary_mem :
    ∀ (l : List ℤ), ∀ ab ∈ pary l, ab.1 ∈ l ∧ ab.2 ∈ l := by
  intro l
  induction l with
  | nil => intro ab hab; simp [pary] at hab
  | cons a rest ih =>
    intro ab hab
    unfold pary at hab
    rw [List.mem_append] at hab
    cases hab with
    | inl h1 =>
      obtain ⟨b, hb, rfl⟩ := List.mem_map.mp h1
      exact ⟨List.mem_cons_self a rest, List.mem_cons_of_mem a hb⟩
    | inr h2 =>
      obtain ⟨ha, hb⟩ := ih ab h2
      exact ⟨List.mem_cons_of_mem a ha, List.mem_cons_of_mem a hb⟩

/-- Auxiliary: in a strictly ascending list, every member pair (a, b)
with a < b is produced by the nested index loop. -/
theorem mem_pary_of_sorted :
    ∀ (l : List ℤ), l.Pairwise (· < ·) → ∀ a b : ℤ,
      a ∈ l → b ∈ l → a < b → (a, b) ∈ pary l := by
  intro l
  induction l with
  | nil => intro _ a b ha; simp at ha
  | cons c rest ih =>
    intro h a b ha hb hab
    rw [List.pairwise_cons] at h
    unfold pary
    rw [List.mem_append]
    rcases List.mem_cons.mp ha with rfl | ha'
    · rcases List.mem_cons.mp hb with rfl | hb'
      · exact absurd hab (lt_irrefl _)
      · exact Or.inl (List.mem_map.mpr ⟨b, hb', rfl⟩)
    · rcases List.mem_cons.mp hb with rfl | hb'
      · exact absurd hab (lt_asymm (h.1 a ha'))
      · exact Or.inr (ih h.2 a b ha' hb' hab)

/-- Auxiliary: the dict lookup fails exactly for keys absent from the
association list. -/
theorem szukaj_eq_none_iff (pozycje : List (ℤ × WspolrzedneGeodezyjne))
    (i : ℤ) : szukaj pozycje i = none ↔ i ∉ pozycje.map Prod.fst := by
  induction pozycje with
  | nil => simp [szukaj]
  | cons p rest ih =>
    unfold szukaj
    cases hr : szukaj rest i with
    | some w =>
      have hmem : i ∈ rest.map Prod.fst := by
        by_contra hni
        rw [← ih] at hni
        rw [hr] at hni
        exact absurd hni (by simp)
      simp [hmem]
    | none =>
      have hni : i ∉ rest.map Prod.fst := ih.mp hr
      by_cases hp : p.1 = i
      · simp [hp]
      · simp [hp, hni, Ne.symm hp]

/-- Auxiliary: every present key has a looked-up value. -/
theorem szukaj_isSome (pozycje : List (ℤ × WspolrzedneGeodezyjne))
    (i : ℤ) (h : i ∈ pozycje.map Prod.fst) :
    ∃ w, szukaj pozycje i = some w := by
  cases hs : szukaj pozycje i with
  | none => exact absurd ((szukaj_eq_none_iff pozycje i).mp hs) (not_not_intro h)
  | some w => exact ⟨w, rfl⟩

end SatelityModele

namespace SatelityApi

open SatelityModele

/-- Auxiliary: the sorted surviving ids are strictly ascending (they
come from deduplicated dict keys). -/
theorem ids_aktywne_sorted (pozycje : List (ℤ × WspolrzedneGeodezyjne)) :
    (ids_aktywne pozycje).Pairwise (· < ·) := by
  have hperm := List.perm_insertionSort (α := ℤ) (· ≤ ·) ((pozycje.map Prod.fst).dedup)
  have hnd : (ids_aktywne pozycje).Nodup :=
    hperm.nodup_iff.mpr (List.nodup_dedup _)
  have hs : (ids_aktywne pozycje).Pairwise (· ≤ ·) :=
    List.sorted_insertionSort (· ≤ ·) ((pozycje.map Prod.fst).dedup)
  exact (hs.and hnd).imp (fun hab => lt_of_le_of_ne hab.1 hab.2)

/-- Auxiliary: membership in the sorted surviving ids is membership in
the position keys. -/
theorem mem_ids_aktywne (pozycje : List (ℤ × WspolrzedneGeodezyjne))
    (i : ℤ) : i ∈ ids_aktywne pozycje ↔ i ∈ pozycje.map Prod.fst := by
  unfold ids_aktywne
  rw [(List.perm_insertionSort _ _).mem_iff, List.mem_dedup]

/-- Auxiliary: full characterization of the events emitted at one grid
tick of wykryj_zdarzenia_w_przedziale. -/
theorem mem_zdarzenia_w_ticku (obiekty : List ModelObiektuBD) (t : ℝ)
    (z : ZdarzeniePrzestrz) :
    z ∈ zdarzenia_w_ticku obiekty t ↔
    ∃ ab ∈ pary (ids_aktywne (pozycje_map obiekty t)), ∃ pa pb,
      szukaj (pozycje_map obiekty t) ab.1 = some pa ∧
      szukaj (pozycje_map obiekty t) ab.2 = some pb ∧
      pa.dystans_do pb < TOLERANCJA_ZBLIZENIA ∧
      z = { obiekt_id_a := min ab.1 ab.2, obiekt_id_b := max ab.1 ab.2
          , moment_czasu := t, lokalizacja := pa
          , dystans_min := pa.dystans_do pb } := by
  simp only [zdarzenia_w_ticku]
  rw [List.mem_filterMap]
  constructor
  · rintro ⟨ab, hab, hf⟩
    refine ⟨ab, hab, ?_⟩
    cases h1 : szukaj (pozycje_map obiekty t) ab.1 with
    | none => rw [h1] at hf; exact absurd hf (by simp)
    | some pa =>
      cases h2 : szukaj (pozycje_map obiekty t) ab.2 with
      | none => rw [h1, h2] at hf; exact absurd hf (by simp)
      | some pb =>
        rw [h1, h2] at hf
        by_cases hd : pa.dystans_do pb < TOLERANCJA_ZBLIZENIA
        · refine ⟨pa, pb, rfl, rfl, hd, ?_⟩
          have hf' : (if pa.dystans_do pb < TOLERANCJA_ZBLIZENIA then
              some { obiekt_id_a := min ab.1 ab.2, obiekt_id_b := max ab.1 ab.2
                   , moment_czasu := t, lokalizacja := pa
                   , dystans_min := pa.dystans_do pb }
              else (none : Option ZdarzeniePrzestrz)) = some z := hf
          rw [if_pos hd] at hf'
          exact (Option.some.injEq _ _ ▸ hf').symm
        · have hf' : (if pa.dystans_do pb < TOLERANCJA_ZBLIZENIA then
              some { obiekt_id_a := min ab.1 ab.2, obiekt_id_b := max ab.1 ab.2
                   , moment_czasu := t, lokalizacja := pa
                   , dystans_min := pa.dystans_do pb }
              else (none : Option ZdarzeniePrzestrz)) = some z := hf
          rw [if_neg hd] at hf'
          exact absurd hf' (by simp)
  · rintro ⟨ab, hab, pa, pb, h1, h2, hd, rfl⟩
    refine ⟨ab, hab, ?_⟩
    rw [h1, h2]
    show (if pa.dystans_do pb < TOLERANCJA_ZBLIZENIA then
        some { obiekt_id_a := min ab.1 ab.2, obiekt_id_b := max ab.1 ab.2
             , moment_czasu := t, lokalizacja := pa
             , dystans_min := pa.dystans_do pb }
        else (none : Option ZdarzeniePrzestrz)) = _
    rw [if_pos hd]

end SatelityApi

namespace SatelityModele

/-- Auxiliary: the 3-D distance of a coordinate to itself is 0. -/
theorem dystans_do_self (w : WspolrzedneGeodezyjne) : w.dystans_do w = 0 := by
  unfold WspolrzedneGeodezyjne.dystans_do
  simp

end SatelityModele

namespace SatelityApi

open SatelityModele

/-- Auxiliary: the example position map at instant 0. -/
theorem przyklad_pozycje :
    pozycje_map [przyklad_obiekt1, przyklad_obiekt2] 0 =
      [(1, przyklad_pozycja), (2, przyklad_pozycja)] := by
  unfold pozycje_map oblicz_pozycje_w_czasie przyklad_obiekt1 przyklad_obiekt2
    przyklad_orbita przyklad_pozycja
  norm_num [List.filterMap_cons]

/-- Auxiliary: the example surviving ids at instant 0. -/
theorem przyklad_ids :
    ids_aktywne (pozycje_map [przyklad_obiekt1, przyklad_obiekt2] 0) = [1, 2] := by
  rw [przyklad_pozycje]
  decide

/-- Auxiliary: the example tick emits exactly one event. -/
theorem przyklad_zdarzenia :
    zdarzenia_w_ticku [przyklad_obiekt1, przyklad_obiekt2] 0 =
      [przyklad_zdarzenie] := by
  have h1 : szukaj (pozycje_map [przyklad_obiekt1, przyklad_obiekt2] 0) 1 =
      some przyklad_pozycja := by
    rw [przyklad_pozycje]
    simp [szukaj]
  have h2 : szukaj (pozycje_map [przyklad_obiekt1, przyklad_obiekt2] 0) 2 =
      some przyklad_pozycja := by
    rw [przyklad_pozycje]
    simp [szukaj]
  have hd : przyklad_pozycja.dystans_do przyklad_pozycja = 0 :=
    dystans_do_self _
  simp only [zdarzenia_w_ticku]
  rw [przyklad_ids]
  have hpary : pary [(1:ℤ), 2] = [(1, 2)] := by decide
  rw [hpary]
  simp only [List.filterMap_cons, List.filterMap_nil]
  norm_num [h1, h2, hd, przyklad_zdarzenie, TOLERANCJA_ZBLIZENIA]

/-- Auxiliary: the example scan over the degenerate interval [0, 0]
with a 60 s step visits the single tick 0. -/
theorem przyklad_skan :
    wykryj_zdarzenia_w_przedziale [przyklad_obiekt1, przyklad_obiekt2] 0 0 60 =
      [przyklad_zdarzenie] := by
  have hz : zaokraglij_do_siatki 0 60 = 0 := by
    unfold zaokraglij_do_siatki pyround
    rw [zero_div, Int.floor_zero]
    norm_num
  have hk : liczba_krokow 0 0 60 = 1 := by
    unfold liczba_krokow
    rw [if_pos le_rfl]
    norm_num
  have hs : siatka 0 0 60 = [0] := by
    unfold siatka
    have hr : List.range 1 = [0] := by decide
    rw [hk, hr]
    simp
  unfold wykryj_zdarzenia_w_przedziale
  rw [hz]
  simp only [hs, List.flatMap_cons, List.flatMap_nil, List.append_nil]
  exact przyklad_zdarzenia

/-- Claim C2: every event emitted by the close-approach scan records as
its location the propagated position of the lower-id object of the pair
at the event's tick (the value stored for obiekt_id_a in that tick's
position map), with obiekt_id_a the lower id. -/
theorem C2_lokalizacja_pierwszego_obiektu (obiekty : List ModelObiektuBD)
    (czas_start czas_koniec delta_czasu : ℝ) (z : ZdarzeniePrzestrz)
    (hz : z ∈ wykryj_zdarzenia_w_przedziale obiekty czas_start czas_koniec delta_czasu) :
    z.obiekt_id_a < z.obiekt_id_b ∧
    szukaj (pozycje_map obiekty z.moment_czasu) z.obiekt_id_a = some z.lokalizacja := by
  simp only [wykryj_zdarzenia_w_przedziale] at hz
  rw [List.mem_flatMap] at hz
  obtain ⟨t, _, hz⟩ := hz
  rw [mem_zdarzenia_w_ticku] at hz
  obtain ⟨ab, hab, pa, pb, h1, h2, hd, rfl⟩ := hz
  have hlt : ab.1 < ab.2 :=
    pary_pairwise _ (ids_aktywne_sorted _) ab hab
  have hmin : min ab.1 ab.2 = ab.1 := min_eq_left hlt.le
  have hmax : max ab.1 ab.2 = ab.2 := max_eq_right hlt.le
  constructor
  · show min ab.1 ab.2 < max ab.1 ab.2
    rw [hmin, hmax]
    exact hlt
  · show szukaj (pozycje_map obiekty t) (min ab.1 ab.2) = some pa
    rw [hmin]
    exact h1

/-- Witness for C2 at a concrete two-object scan producing one event. -/
theorem C2_lokalizacja_pierwszego_obiektu_witness :
    przyklad_zdarzenie.obiekt_id_a < przyklad_zdarzenie.obiekt_id_b ∧
    szukaj (pozycje_map [przyklad_obiekt1, przyklad_obiekt2]
        przyklad_zdarzenie.moment_czasu) przyklad_zdarzenie.obiekt_id_a =
      some przyklad_zdarzenie.lokalizacja :=
  C2_lokalizacja_pierwszego_obiektu [przyklad_obiekt1, przyklad_obiekt2]
    0 0 60 przyklad_zdarzenie
    (by rw [przyklad_skan]; exact List.mem_singleton_self _)

/-- Claim C7: in every event emitted by the close-approach scan the
lower id is strictly below the higher id, for every catalog and scan
request. -/
theorem C7_scisle_uporzadkowanie_id (obiekty : List ModelObiektuBD)
    (czas_start czas_koniec delta_czasu : ℝ) (z : ZdarzeniePrzestrz)
    (hz : z ∈ wykryj_zdarzenia_w_przedziale obiekty czas_start czas_koniec delta_czasu) :
    z.obiekt_id_a < z.obiekt_id_b := by
  simp only [wykryj_zdarzenia_w_przedziale] at hz
  rw [List.mem_flatMap] at hz
  obtain ⟨t, _, hz⟩ := hz
  rw [mem_zdarzenia_w_ticku] at hz
  obtain ⟨ab, hab, pa, pb, _, _, _, rfl⟩ := hz
  have hlt : ab.1 < ab.2 :=
    pary_pairwise _ (ids_aktywne_sorted _) ab hab
  show min ab.1 ab.2 < max ab.1 ab.2
  rw [min_eq_left hlt.le, max_eq_right hlt.le]
  exact hlt

/-- Witness for C7 at the same concrete two-object scan. -/
theorem C7_scisle_uporzadkowanie_id_witness :
    przyklad_zdarzenie.obiekt_id_a < przyklad_zdarzenie.obiekt_id_b :=
  C7_scisle_uporzadkowanie_id [przyklad_obiekt1, przyklad_obiekt2]
    0 0 60 przyklad_zdarzenie
    (by rw [przyklad_skan]; exact List.mem_singleton_self _)

/-- Claim C3: at every grid tick and for every surviving pair (a, b)
taken in ascending order, an event for that pair is emitted iff the 3-D
Cartesian distance of their positions is strictly below the threshold;
in particular a distance exactly equal to the threshold is not
reported. -/
theorem C3_scisly_prog_wykrywania (obiekty : List ModelObiektuBD) (t : ℝ)
    (a b : ℤ) (hab : (a, b) ∈ pary (ids_aktywne (pozycje_map obiekty t))) :
    (∃ z ∈ zdarzenia_w_ticku obiekty t,
        z.obiekt_id_a = a ∧ z.obiekt_id_b = b) ↔
    (∃ pa pb, szukaj (pozycje_map obiekty t) a = some pa ∧
        szukaj (pozycje_map obiekty t) b = some pb ∧
        pa.dystans_do pb < TOLERANCJA_ZBLIZENIA) := by
  have hltab : a < b :=
    pary_pairwise _ (ids_aktywne_sorted _) (a, b) hab
  constructor
  · rintro ⟨z, hz, hza, hzb⟩
    rw [mem_zdarzenia_w_ticku] at hz
    obtain ⟨ab, hab', pa, pb, h1, h2, hd, rfl⟩ := hz
    have hlt : ab.1 < ab.2 :=
      pary_pairwise _ (ids_aktywne_sorted _) ab hab'
    have ha : ab.1 = a := by
      rw [← hza]
      exact (min_eq_left hlt.le).symm
    have hb : ab.2 = b := by
      rw [← hzb]
      exact (max_eq_right hlt.le).symm
    exact ⟨pa, pb, ha ▸ h1, hb ▸ h2, hd⟩
  · rintro ⟨pa, pb, h1, h2, hd⟩
    refine ⟨{ obiekt_id_a := min a b, obiekt_id_b := max a b
            , moment_czasu := t, lokalizacja := pa
            , dystans_min := pa.dystans_do pb }, ?_,
        min_eq_left hltab.le, max_eq_right hltab.le⟩
    rw [mem_zdarzenia_w_ticku]
    exact ⟨(a, b), hab, pa, pb, h1, h2, hd, rfl⟩

/-- Witness for C3 at the concrete tick of the two-object scan. -/
theorem C3_scisly_prog_wykrywania_witness :
    (∃ z ∈ zdarzenia_w_ticku [przyklad_obiekt1, przyklad_obiekt2] 0,
        z.obiekt_id_a = 1 ∧ z.obiekt_id_b = 2) ↔
    (∃ pa pb,
        szukaj (pozycje_map [przyklad_obiekt1, przyklad_obiekt2] 0) 1 = some pa ∧
        szukaj (pozycje_map [przyklad_obiekt1, przyklad_obiekt2] 0) 2 = some pb ∧
        pa.dystans_do pb < TOLERANCJA_ZBLIZENIA) :=
  C3_scisly_prog_wykrywania [przyklad_obiekt1, przyklad_obiekt2] 0 1 2
    (by rw [przyklad_ids]; decide)

/-- Claim C5: an object whose epoch is strictly after the queried
instant yields the distinct no-position result (none, not an error and
not a coordinate); if every catalog entry carrying an id has a future
epoch at the instant, that id is absent from the tick's position map
and from every event of that tick. -/
theorem C5_brak_pozycji_przed_epoka :
    (∀ (o : ModelObiektuBD) (t : ℝ), t < o.data_wprowadzenia →
      oblicz_pozycje_w_czasie o t = none) ∧
    (∀ (obiekty : List ModelObiektuBD) (t : ℝ) (i : ℤ),
      (∀ o ∈ obiekty, o.id_rekordu = i → t < o.data_wprowadzenia) →
      i ∉ (pozycje_map obiekty t).map Prod.fst ∧
      ∀ z ∈ zdarzenia_w_ticku obiekty t,
        z.obiekt_id_a ≠ i ∧ z.obiekt_id_b ≠ i) := by
  have hnone : ∀ (o : ModelObiektuBD) (t : ℝ), t < o.data_wprowadzenia →
      oblicz_pozycje_w_czasie o t = none := by
    intro o t h
    unfold oblicz_pozycje_w_czasie
    rw [if_pos h]
  refine ⟨hnone, ?_⟩
  intro obiekty t i hfut
  have hkeys : i ∉ (pozycje_map obiekty t).map Prod.fst := by
    intro hmem
    obtain ⟨p, hp, hpi⟩ := List.mem_map.mp hmem
    obtain ⟨o, ho, hof⟩ := List.mem_filterMap.mp hp
    by_cases hact : o.stan_operacyjny = TypObiektu.AKTYWNY
    · rw [if_pos hact] at hof
      cases hpos : oblicz_pozycje_w_czasie o t with
      | none => rw [hpos] at hof; exact absurd hof (by simp)
      | some poz =>
        rw [hpos] at hof
        have hid : o.id_rekordu = i := by
          have : p = (o.id_rekordu, poz) := by
            simpa using hof.symm
          rw [this] at hpi
          exact hpi
        have := hnone o t (hfut o ho hid)
        rw [this] at hpos
        exact absurd hpos (by simp)
    · rw [if_neg hact] at hof
      exact absurd hof (by simp)
  refine ⟨hkeys, ?_⟩
  intro z hz
  rw [mem_zdarzenia_w_ticku] at hz
  obtain ⟨ab, hab, pa, pb, _, _, _, rfl⟩ := hz
  obtain ⟨hm1, hm2⟩ := pary_mem _ ab hab
  have hk1 : ab.1 ∈ (pozycje_map obiekty t).map Prod.fst :=
    (mem_ids_aktywne _ _).mp hm1
  have hk2 : ab.2 ∈ (pozycje_map obiekty t).map Prod.fst :=
    (mem_ids_aktywne _ _).mp hm2
  constructor
  · show min ab.1 ab.2 ≠ i
    intro hmin
    rcases min_cases ab.1 ab.2 with ⟨heq, _⟩ | ⟨heq, _⟩
    · refine hkeys ?_
      rw [← hmin, heq]
      exact hk1
    · refine hkeys ?_
      rw [← hmin, heq]
      exact hk2
  · show max ab.1 ab.2 ≠ i
    intro hmax
    rcases max_cases ab.1 ab.2 with ⟨heq, _⟩ | ⟨heq, _⟩
    · refine hkeys ?_
      rw [← hmax, heq]
      exact hk1
    · refine hkeys ?_
      rw [← hmax, heq]
      exact hk2

/-- Witness for C5: an object introduced at epoch 1000 queried at
instant 0 yields none. -/
theorem C5_brak_pozycji_przed_epoka_witness :
    oblicz_pozycje_w_czasie przyklad_obiekt_przyszly 0 = none :=
  C5_brak_pozycji_przed_epoka.1 przyklad_obiekt_przyszly 0 (by
    unfold przyklad_obiekt_przyszly
    norm_num)

end SatelityApi

namespace SatelitySerwisy

open SatelityModele

/-- Auxiliary: an object whose position computation fails contributes
nothing to the collision detector's position map. -/
theorem pozycje_kolizji_cons_blad (o : ModelObiektuBD)
    (reszta : List ModelObiektuBD) (t : ℝ) (e : BladObliczenOrbitych)
    (h : oblicz_pozycje_obiektu o t = Except.error e) :
    pozycje_kolizji (o :: reszta) t = pozycje_kolizji reszta t := by
  unfold pozycje_kolizji
  rw [List.filterMap_cons, h]
  rfl

/-- Auxiliary: the collision detector's position pass distributes over
list append. -/
theorem pozycje_kolizji_append (l1 l2 : List ModelObiektuBD) (t : ℝ) :
    pozycje_kolizji (l1 ++ l2) t =
      pozycje_kolizji l1 t ++ pozycje_kolizji l2 t := by
  unfold pozycje_kolizji
  exact List.filterMap_append l1 l2 _

/-- Auxiliary: with at most one surviving position there is no pair to
report. -/
theorem zdarzenia_kolizji_krotkie (prog : ℝ)
    (pozycje : List (ℤ × WspolrzedneGeodezyjne)) (t : ℝ)
    (h : pozycje.length ≤ 1) : zdarzenia_kolizji prog pozycje t = [] := by
  cases pozycje with
  | nil => rfl
  | cons p reszta =>
    cases reszta with
    | nil => simp [zdarzenia_kolizji, pary]
    | cons q r =>
      simp [List.length_cons] at h

/-- Auxiliary: the position pass never yields more entries than there
are objects. -/
theorem pozycje_kolizji_length (l : List ModelObiektuBD) (t : ℝ) :
    (pozycje_kolizji l t).length ≤ l.length := by
  unfold pozycje_kolizji
  exact List.length_filterMap_le _ _

/-- Claim C4: a computation error (negative elapsed time — query
instant before the start date — or angular velocity below the epsilon)
is surfaced by the direct single-object entry point oblicz_pozycje,
while in the multi-object scan wykryj_kolizje the same failure only
removes that object from the analysis and the scan's result over the
remaining objects is unchanged. -/
theorem C4_asymetria_bledow :
    (∀ (p : ParametryOrbitalne) (moment dlugosc_pocz data_startowa : ℝ),
      moment - data_startowa < 0 →
      oblicz_pozycje p moment dlugosc_pocz data_startowa =
        Except.error BladObliczenOrbitych.momentPrzedStartem) ∧
    (∀ (p : ParametryOrbitalne) (moment dlugosc_pocz data_startowa : ℝ),
      ¬ moment - data_startowa < 0 →
      |p.oblicz_predkosc_katowa| < EPSILON_NUMERYCZNY →
      oblicz_pozycje p moment dlugosc_pocz data_startowa =
        Except.error BladObliczenOrbitych.predkoscZbytNiska) ∧
    (∀ (prog : ℝ) (xs ys : List ModelObiektuBD) (o : ModelObiektuBD)
      (t : ℝ) (e : BladObliczenOrbitych),
      oblicz_pozycje_obiektu o t = Except.error e →
      wykryj_kolizje prog (xs ++ o :: ys) t =
        wykryj_kolizje prog (xs ++ ys) t) := by
  refine ⟨?_, ?_, ?_⟩
  · intro p moment dlugosc_pocz data_startowa h
    unfold oblicz_pozycje
    rw [if_pos h]
  · intro p moment dlugosc_pocz data_startowa h1 h2
    unfold oblicz_pozycje
    rw [if_neg h1, if_pos h2]
  · intro prog xs ys o t e he
    simp only [wykryj_kolizje]
    by_cases hact : o.stan_operacyjny = TypObiektu.AKTYWNY
    · have hfilter :
          (xs ++ o :: ys).filter
              (fun x => x.stan_operacyjny = TypObiektu.AKTYWNY) =
            xs.filter (fun x => x.stan_operacyjny = TypObiektu.AKTYWNY) ++
              o :: ys.filter (fun x => x.stan_operacyjny = TypObiektu.AKTYWNY) := by
        simp [List.filter_append, List.filter_cons, hact]
      have hfilter2 :
          (xs ++ ys).filter
              (fun x => x.stan_operacyjny = TypObiektu.AKTYWNY) =
            xs.filter (fun x => x.stan_operacyjny = TypObiektu.AKTYWNY) ++
              ys.filter (fun x => x.stan_operacyjny = TypObiektu.AKTYWNY) := by
        simp [List.filter_append]
      rw [hfilter, hfilter2]
      set A := xs.filter (fun x => x.stan_operacyjny = TypObiektu.AKTYWNY)
      set B := ys.filter (fun x => x.stan_operacyjny = TypObiektu.AKTYWNY)
      have hpoz : pozycje_kolizji (A ++ o :: B) t =
          pozycje_kolizji (A ++ B) t := by
        rw [pozycje_kolizji_append, pozycje_kolizji_cons_blad o B t e he,
          ← pozycje_kolizji_append]
      have hlen : (A ++ o :: B).length = (A ++ B).length + 1 := by
        simp [List.length_append, List.length_cons]
        omega
      rw [hpoz, hlen]
      by_cases hL : (A ++ B).length < 2
      · rw [if_pos hL]
        by_cases hL1 : (A ++ B).length + 1 < 2
        · rw [if_pos hL1]
        · rw [if_neg hL1]
          apply zdarzenia_kolizji_krotkie
          calc (pozycje_kolizji (A ++ B) t).length
              ≤ (A ++ B).length := pozycje_kolizji_length _ _
            _ ≤ 1 := by omega
      · rw [if_neg hL, if_neg (by omega)]
    · have hfilter :
          (xs ++ o :: ys).filter
              (fun x => x.stan_operacyjny = TypObiektu.AKTYWNY) =
            (xs ++ ys).filter
              (fun x => x.stan_operacyjny = TypObiektu.AKTYWNY) := by
        simp [List.filter_append, List.filter_cons, hact]
      rw [hfilter]

/-- Witness for C4: the future-epoch object fails with a negative
elapsed time at instant 0, and removing it from the catalog does not
change the collision scan's result. -/
theorem C4_asymetria_bledow_witness :
    wykryj_kolizje TOLERANCJA_ZBLIZENIA
        ([SatelityApi.przyklad_obiekt1] ++
          SatelityApi.przyklad_obiekt_przyszly :: [SatelityApi.przyklad_obiekt2]) 0 =
      wykryj_kolizje TOLERANCJA_ZBLIZENIA
        ([SatelityApi.przyklad_obiekt1] ++ [SatelityApi.przyklad_obiekt2]) 0 :=
  C4_asymetria_bledow.2.2 TOLERANCJA_ZBLIZENIA
    [SatelityApi.przyklad_obiekt1] [SatelityApi.przyklad_obiekt2]
    SatelityApi.przyklad_obiekt_przyszly 0
    BladObliczenOrbitych.momentPrzedStartem (by
      unfold oblicz_pozycje_obiektu oblicz_pozycje
        SatelityApi.przyklad_obiekt_przyszly SatelityApi.przyklad_orbita
      norm_num)

end SatelitySerwisy
